import Mathlib

/-!
Shallow embedding of the sync service of `backendServerSyncPoc`
(`src/src/sync/sync.service.ts`).  JavaScript runtime values are modelled by
`JsValue`; JS numbers are rationals (NaN is represented by `Option` results of
the parsing functions); JS `Date` objects are an epoch-millisecond integer
(`Option Int` where `none` stands for an Invalid Date).  Engine facilities the
repository merely calls into (Date-string parsing, local-calendar `setHours`,
the local-time field breakdown used by `getFullYear`/`getMonth`/...) are taken
as explicit function parameters, so every theorem quantifies over them.
-/

deriving instance DecidableEq for Except

namespace SyncSvc

/-- Model of a JavaScript runtime value as it appears in the untyped (`any`)
payloads handled by the sync service.  `vNum` carries a rational (JS numbers
that are not NaN); `vDate` carries a valid Date's epoch milliseconds. -/
inductive JsValue where
  | vUndefined
  | vNull
  | vBool (b : Bool)
  | vNum (q : Rat)
  | vStr (s : String)
  | vDate (ms : Int)
deriving DecidableEq, Repr

/-- JS truthiness (`if (x)` / `x ? _ : _`) for the modelled values. -/
def jsTruthy : JsValue → Bool
  | .vUndefined => false
  | .vNull => false
  | .vBool b => b
  | .vNum q => q != 0
  | .vStr s => s != ""
  | .vDate _ => true

/-- Canonical decimal rendering of a JS number, standing in for JS
`String(number)`; exact float printing is not needed by any claim, integers
(the only case the repository exercises) render exactly. -/
def jsNumberToString (q : Rat) : String :=
  if q.den = 1 then toString q.num else toString q

/-- JS `String(v)` coercion for the modelled values.  The Date case is a
stand-in rendering (no claim depends on Date `toString`). -/
def jsToString : JsValue → String
  | .vUndefined => "undefined"
  | .vNull => "null"
  | .vBool b => if b then "true" else "false"
  | .vNum q => jsNumberToString q
  | .vStr s => s
  | .vDate ms => "Date(" ++ toString ms ++ ")"

/-! String scanning is done on the character list (`String.data`), with
structurally recursive helpers standing in for the engine's string methods
(`trim`, `split`, digit parsing); the ASCII whitespace class is used. -/

/-- ASCII whitespace, the class trimmed by the modelled string inputs. -/
def isWsChar (c : Char) : Bool :=
  c = Char.ofNat 32 || c = Char.ofNat 9 || c = Char.ofNat 10
    || c = Char.ofNat 13 || c = Char.ofNat 12 || c = Char.ofNat 11

/-- JS `String.prototype.trim` on a character list. -/
def trimChars (l : List Char) : List Char :=
  ((l.dropWhile isWsChar).reverse.dropWhile isWsChar).reverse

/-- JS `str.split(sep)` for a one-character separator. -/
def splitOnChar (sep : Char) : List Char → List (List Char)
  | [] => [[]]
  | c :: cs =>
    let r := splitOnChar sep cs
    if c = sep then [] :: r
    else
      match r with
      | [] => [[c]]
      | p :: ps => (c :: p) :: ps

/-- Decimal digit run value. -/
def digitsVal (l : List Char) : Nat :=
  l.foldl (fun a c => a * 10 + (c.toNat - 48)) 0

/-- Whether every character is a decimal digit. -/
def allDigits (l : List Char) : Bool :=
  l.all Char.isDigit

/-- Parse an unsigned decimal literal (digits with at most one point), the
fragment of the JS numeric grammar exercised by the repository (hex /
exponent / Infinity forms are outside this model).  `none` is NaN. -/
def parseUnsignedRatChars (t : List Char) : Option Rat :=
  match splitOnChar (Char.ofNat 46) t with
  | [a] => if !a.isEmpty && allDigits a then some (mkRat (digitsVal a) 1) else none
  | [a, b] =>
      if a.isEmpty && b.isEmpty then none
      else if (a.isEmpty || allDigits a) && (b.isEmpty || allDigits b) then
        some (mkRat (digitsVal a * 10 ^ b.length + digitsVal b) (10 ^ b.length))
      else none
  | _ => none

/-- JS `Number(string)` on a character list: whitespace-only is 0, otherwise
an optional sign followed by a decimal literal; `none` is NaN. -/
def jsNumberOfChars (l : List Char) : Option Rat :=
  match trimChars l with
  | [] => some 0
  | c :: rest =>
    if c = Char.ofNat 45 then (parseUnsignedRatChars rest).map (fun q => -q)
    else if c = Char.ofNat 43 then parseUnsignedRatChars rest
    else parseUnsignedRatChars (c :: rest)

/-- JS `Number(string)` coercion. -/
def jsNumberOfString (s : String) : Option Rat :=
  jsNumberOfChars s.data

/-- JS `parseInt(s, 10)`: skip whitespace, optional sign, longest digit
prefix; `none` is NaN (no digits). -/
def jsParseInt (s : String) : Option Int :=
  let t := trimChars s.data
  let (neg, u) :=
    match t with
    | c :: rest =>
      if c = Char.ofNat 45 then (true, rest)
      else if c = Char.ofNat 43 then (false, rest)
      else (false, t)
    | [] => (false, t)
  let ds := u.takeWhile Char.isDigit
  if ds.isEmpty then none
  else some (if neg then -(digitsVal ds : Int) else (digitsVal ds : Int))

/-- JS `parseFloat(s)`: longest prefix of the form sign, digits, optional
point and digits (exponent notation outside this model); `none` is NaN. -/
def jsParseFloat (s : String) : Option Rat :=
  let t := trimChars s.data
  let (neg, u) :=
    match t with
    | c :: rest =>
      if c = Char.ofNat 45 then (true, rest)
      else if c = Char.ofNat 43 then (false, rest)
      else (false, t)
    | [] => (false, t)
  let ip := u.takeWhile Char.isDigit
  let rest := u.drop ip.length
  let frac : List Char :=
    match rest with
    | c :: r => if c = Char.ofNat 46 then r.takeWhile Char.isDigit else []
    | [] => []
  if ip.isEmpty && frac.isEmpty then none
  else
    let v : Rat := mkRat (digitsVal ip * 10 ^ frac.length + digitsVal frac) (10 ^ frac.length)
    some (if neg then -v else v)

/-- Truncation toward zero of a rational to an integer, as performed by the
ECMAScript ToIntegerOrInfinity conversion (used by `new Date(number)` and
`setHours`); also the spec's phrase "truncated toward zero". -/
def ratTruncZ (q : Rat) : Int :=
  Int.tdiv q.num (q.den : Int)

/-- JS `Math.floor` on a (non-NaN) number: round toward negative infinity. -/
def jsMathFloor (q : Rat) : Int :=
  Int.fdiv q.num (q.den : Int)

/-- JS `new Date(v)` for a single non-number-typed argument, yielding epoch
milliseconds, `none` for an Invalid Date.  Date-string parsing is the engine
parameter `dparse`. -/
def jsNewDate (dparse : String → Option Int) : JsValue → Option Int
  | .vNum q => some (ratTruncZ q)
  | .vStr s => dparse s
  | .vDate ms => some ms
  | .vNull => some 0
  | .vUndefined => none
  | .vBool b => some (if b then 1 else 0)

/-- Errors surfaced by the sync paths: a JS `TypeError`, a persistence-layer
failure code, Prisma's record-not-found on `update`, and the raw-SQL
"not implemented for table" error. -/
inductive SyncErr where
  | typeError
  | dbError (code : Nat)
  | notFound
  | notImplemented
deriving DecidableEq, Repr

/-- Raw product record as received on the wire (fields referenced by
`sanitizeProductData`; the `_status` / `_changed` sync-metadata fields are
destructured away by the source and never reach the output). -/
structure RawProduct where
  id : JsValue
  product_code : JsValue
  product_name : JsValue
  description : JsValue
  price : JsValue
  stock_quantity : JsValue
  is_active : JsValue
  updated_at : JsValue
deriving DecidableEq, Repr

/-- Input to the product sanitizer: the raw record, or the JS null /
undefined values (whose destructuring throws a TypeError). -/
inductive ProdIn where
  | jsNull
  | jsUndef
  | obj (p : RawProduct)
deriving DecidableEq, Repr

/-- Canonical product record produced by `sanitizeProductData`
(`updated_at = none` models an Invalid Date). -/
structure Product where
  id : JsValue
  product_code : JsValue
  product_name : JsValue
  description : JsValue
  price : Rat
  stock_quantity : Int
  is_active : Bool
  updated_at : Option Int
deriving DecidableEq, Repr

/-- The `stock_quantity` coercion of `sanitizeProductData`:
`typeof x === 'number' ? Math.floor(x) : parseInt(String(x), 10) || 0`. -/
def sanitizeStockQuantity (v : JsValue) : Int :=
  match v with
  | .vNum q => jsMathFloor q
  | v => (jsParseInt (jsToString v)).getD 0

/-- Embedding of `SyncService.sanitizeProductData` (sync.service.ts lines 276-319).
`dparse` is the engine's Date-string parser (`new Date(string)`), `now` the
current time (`new Date()`).  A `null`/`undefined` record throws at the
destructuring; a truthy non-string `description` throws at `.trim()`. -/
def sanitizeProductData (dparse : String → Option Int) (now : Int) :
    ProdIn → Except SyncErr Product
  | .jsNull => .error .typeError
  | .jsUndef => .error .typeError
  | .obj item =>
    let price : Rat :=
      match item.price with
      | .vNum q => q
      | v => (jsParseFloat (jsToString v)).getD 0
    let stock_quantity : Int := sanitizeStockQuantity item.stock_quantity
    let is_active : Bool :=
      match item.is_active with
      | .vBool b => b
      | v => decide (v = .vStr "true") || decide (v = .vNum 1)
    let updated_at : Option Int :=
      if jsTruthy item.updated_at then
        match item.updated_at with
        | .vNum q => some (ratTruncZ q)
        | .vDate ms => some ms
        | v => dparse (jsToString v)
      else some now
    let descE : Except SyncErr JsValue :=
      if jsTruthy item.description then
        match item.description with
        | .vStr str => .ok (if !(trimChars str.data).isEmpty then .vStr str else .vNull)
        | _ => .error .typeError
      else .ok .vNull
    descE.map (fun description =>
      { id := item.id
        product_code := item.product_code
        product_name := item.product_name
        description := description
        price := price
        stock_quantity := stock_quantity
        is_active := is_active
        updated_at := updated_at })

/-- Raw order record as received on the wire (fields referenced by
`sanitizeOrderData`; further spread-through fields of the wire object are not
needed by any claim and are omitted from the model). -/
structure RawOrder where
  id : JsValue
  location_id : JsValue
  customer_id : JsValue
  order_no : JsValue
  order_type_id : JsValue
  order_date : JsValue
  order_time : JsValue
  ip_address : JsValue
  user_agent : JsValue
  updated_at : JsValue
deriving DecidableEq, Repr

/-- Input to the order sanitizer. -/
inductive OrderIn where
  | jsNull
  | jsUndef
  | obj (o : RawOrder)
deriving DecidableEq, Repr

/-- Canonical order record produced by `sanitizeOrderData`. -/
structure OrderCanon where
  id : JsValue
  location_id : JsValue
  customer_id : JsValue
  order_no : JsValue
  order_type_id : JsValue
  ip_address : JsValue
  user_agent : JsValue
  order_date : Option Int
  order_time : Option Int
  updated_at : Option Int
deriving DecidableEq, Repr

/-- Embedding of `SyncService.sanitizeOrderData` (sync.service.ts lines 241-273).
`setHMS d h m s` is the engine's local-calendar `Date.setHours(h, m, s, 0)`
applied to the date `d`.  Only a `null`/`undefined` record throws. -/
def sanitizeOrderData (dparse : String → Option Int)
    (setHMS : Int → Int → Int → Int → Int) (now : Int) :
    OrderIn → Except SyncErr OrderCanon
  | .jsNull => .error .typeError
  | .jsUndef => .error .typeError
  | .obj item =>
    let order_date : Option Int :=
      if jsTruthy item.order_date then
        match item.order_date with
        | .vNum q => some (ratTruncZ q)
        | v => jsNewDate dparse v
      else some now
    let order_time : Option Int :=
      match item.order_time with
      | .vStr str =>
        let parts := (splitOnChar (Char.ofNat 58) str.data).map jsNumberOfChars
        let comp : Nat → Int := fun i =>
          (((parts.getD i none).map ratTruncZ).getD 0)
        order_date.map (fun d => setHMS d (comp 0) (comp 1) (comp 2))
      | .vNum q => some (ratTruncZ q)
      | _ => some now
    let updated_at : Option Int :=
      if jsTruthy item.updated_at then
        match item.updated_at with
        | .vNum q => some (ratTruncZ q)
        | v => jsNewDate dparse v
      else some now
    .ok
      { id := item.id
        location_id := item.location_id
        customer_id := item.customer_id
        order_no := item.order_no
        order_type_id := item.order_type_id
        ip_address := item.ip_address
        user_agent := item.user_agent
        order_date := order_date
        order_time := order_time
        updated_at := updated_at }

/-! ### Store model and the push paths

The products table is modelled as a list of canonical rows; `id` is its
primary key.  Prisma's `upsert` / `update` / `delete` and the raw
`INSERT ... ON DUPLICATE KEY UPDATE` / `DELETE` statements are given their
store-level semantics on this list. -/

/-- The `mh_products` table contents. -/
abbrev PStore := List Product

/-- Whether a row with the given primary key is present. -/
def hasId (i : JsValue) (s : PStore) : Bool :=
  s.any (fun p => p.id == i)

/-- Store semantics of an upsert keyed by `id`: overwrite the existing row in
place, else append.  Used for Prisma `model.upsert` and for the raw
`INSERT ... ON DUPLICATE KEY UPDATE` statement. -/
def upsertStore (r : Product) : PStore → PStore
  | [] => [r]
  | p :: ps => if p.id = r.id then r :: ps else p :: upsertStore r ps

/-- Replace the row with the matching `id` (no-op when absent). -/
def replaceFirst (r : Product) : PStore → PStore
  | [] => []
  | p :: ps => if p.id = r.id then r :: ps else p :: replaceFirst r ps

/-- Remove the row with the matching `id` (no-op when absent); store
semantics of Prisma `model.delete` after its not-found error is caught. -/
def removeFirst (i : JsValue) : PStore → PStore
  | [] => []
  | p :: ps => if p.id = i then ps else p :: removeFirst i ps

/-- Prisma `model.upsert({where: {id}, create, update})`: never a
duplicate-key error. -/
def upsertOpStd (r : Product) (s : PStore) : Except SyncErr PStore :=
  .ok (upsertStore r s)

/-- Prisma `model.update({where: {id}, data})`: record-not-found (P2025) when
the id is absent. -/
def updateOpStd (r : Product) (s : PStore) : Except SyncErr PStore :=
  if hasId r.id s then .ok (replaceFirst r s) else .error .notFound

/-- One entity type's change-set as received by `push`. -/
structure TableChanges where
  created : List ProdIn
  updated : List ProdIn
  deleted : List JsValue
deriving DecidableEq, Repr

/-- Sequential fail-fast loop over items, as in the `created` / `updated`
loops of `syncTable`: each item's try block rethrows, aborting the loop, and
the store keeps the writes already applied. -/
def runFailFast (step : α → σ → Except SyncErr σ) : List α → σ → σ × Option SyncErr
  | [], s => (s, none)
  | a :: as, s =>
    match step a s with
    | .ok s2 => runFailFast step as s2
    | .error e => (s, some e)

/-- The per-item step of the `created` loop: sanitize, then the model's
upsert call (the persistence collaborator `uOp`, which may fail). -/
def createStep (uOp : Product → PStore → Except SyncErr PStore)
    (san : ProdIn → Except SyncErr Product) (it : ProdIn) (st : PStore) :
    Except SyncErr PStore :=
  (san it).bind (fun r => uOp r st)

/-- The Prisma-model path of `SyncService.syncTable` (lines 99-150): created
items (fail-fast), then updated items (fail-fast), then deleted ids with
every delete error swallowed. -/
def syncTableModelPath (uOp upOp : Product → PStore → Except SyncErr PStore)
    (san : ProdIn → Except SyncErr Product) (tc : TableChanges) (s : PStore) :
    PStore × Option SyncErr :=
  match runFailFast (createStep uOp san) tc.created s with
  | (s1, some e) => (s1, some e)
  | (s1, none) =>
    match runFailFast (createStep upOp san) tc.updated s1 with
    | (s2, some e) => (s2, some e)
    | (s2, none) => (tc.deleted.foldl (fun st i => removeFirst i st) s2, none)

/-- Store semantics of the raw `DELETE FROM ... WHERE id = ...` statement:
removes every matching row, no error when none match. -/
def rawDeleteById (i : JsValue) (s : PStore) : PStore :=
  s.filter (fun p => p.id != i)

/-- Embedding of `SyncService.syncTableRawSQL` for `mh_products` (lines 153-238), at store
level: created and updated items are concatenated and each goes through the
same sanitize + `INSERT ... ON DUPLICATE KEY UPDATE` (upsert) statement,
fail-fast; deleted ids each run a `DELETE` with errors swallowed. -/
def syncTableRawSQL (san : ProdIn → Except SyncErr Product)
    (tc : TableChanges) (s : PStore) : PStore × Option SyncErr :=
  match runFailFast (createStep upsertOpStd san) (tc.created ++ tc.updated) s with
  | (s1, some e) => (s1, some e)
  | (s1, none) => (tc.deleted.foldl (fun st i => rawDeleteById i st) s1, none)

/-- Embedding of `SyncService.syncTable` (lines 84-150): the Prisma-model path when the
model binding exists, else the raw-SQL fallback. -/
def syncTable (modelBinding : Bool)
    (uOp upOp : Product → PStore → Except SyncErr PStore)
    (san : ProdIn → Except SyncErr Product) (tc : TableChanges) (s : PStore) :
    PStore × Option SyncErr :=
  if modelBinding then syncTableModelPath uOp upOp san tc s
  else syncTableRawSQL san tc s

/-- The `{ success: true }` acknowledgment returned by `push`. -/
structure PushAck where
  success : Bool
deriving DecidableEq, Repr

/-- Embedding of `SyncService.push` restricted to the `mh_products` key of the change-set
(lines 64-81; the `mh_off_orders` branch is structurally identical with the
order sanitizer): a present change-set runs `syncTable`, an error propagates
as a failed call, otherwise `{ success: true }` is returned together with the
updated store. -/
def pushProducts (modelBinding : Bool)
    (uOp upOp : Product → PStore → Except SyncErr PStore)
    (san : ProdIn → Except SyncErr Product)
    (tcOpt : Option TableChanges) (s : PStore) :
    PStore × Except SyncErr PushAck :=
  match tcOpt with
  | none => (s, .ok { success := true })
  | some tc =>
    match syncTable modelBinding uOp upOp san tc s with
    | (s1, some e) => (s1, .error e)
    | (s1, none) => (s1, .ok { success := true })

/-! ### Pull -/

/-- A stored row as seen by the pull queries (only the `updated_at` column
participates in the window predicate). -/
structure Row where
  id : String
  updated_at : Int
deriving DecidableEq, Repr

/-- One entity type's bucket in the pull result. -/
structure Bucket where
  created : List Row
  updated : List Row
  deleted : List Row
deriving DecidableEq, Repr

/-- The `changes` object of the pull result. -/
structure PullChanges where
  mh_off_orders : Bucket
  mh_products : Bucket
deriving DecidableEq, Repr

/-- The pull result: `changes` plus the `Date.now()` timestamp. -/
structure PullResult where
  changes : PullChanges
  timestamp : Int
deriving DecidableEq, Repr

/-- The database contents visible to `pull`. -/
structure PullDb where
  orders : List Row
  products : List Row
deriving DecidableEq, Repr

/-- Failures of a pull call: the orders query rejecting (it has no catch
handler), or Prisma rejecting an Invalid Date as the `gt` bound. -/
inductive PullErr where
  | queryFailed
  | invalidSince
deriving DecidableEq, Repr

/-- Resolution of the `since` bound (line 33):
`lastPulledAt ? new Date(Number(lastPulledAt)) : new Date(0)`.  `none` models
an Invalid Date (`Number` returned NaN on a truthy string). -/
def resolveSince (lastPulledAt : Option String) : Option Int :=
  match lastPulledAt with
  | none => some 0
  | some s => if s = "" then some 0 else (jsNumberOfString s).map ratTruncZ

/-- The query `findMany` with `where updated_at gt since`. -/
def findChangedSince (since : Int) (rows : List Row) : List Row :=
  rows.filter (fun r => since < r.updated_at)

/-- Embedding of `SyncService.pull` (lines 32-61).  `ordersFail` / `productsFail` say
whether the respective entity query rejects (e.g. table absent).  The orders
query has no catch handler, so its failure rejects the whole call; the
products query has `.catch(() => [])` (and optional chaining), degrading to
an empty list.  An Invalid Date bound is rejected by the query layer. -/
def pull (db : PullDb) (ordersFail productsFail : Bool)
    (lastPulledAt : Option String) (now : Int) : Except PullErr PullResult :=
  match resolveSince lastPulledAt with
  | none => .error .invalidSince
  | some since =>
    if ordersFail then .error .queryFailed
    else
      let orders := findChangedSince since db.orders
      let products := if productsFail then [] else findChangedSince since db.products
      .ok
        { changes :=
            { mh_off_orders := { created := orders, updated := [], deleted := [] }
              mh_products := { created := products, updated := [], deleted := [] } }
          timestamp := now }

/-! ### Raw-SQL literal escaping

The fallback path builds SQL text by hand.  `escapeValue` (lines 164-190)
escapes a value for the INSERT statement; the DELETE statement (line 232)
escapes the id with only the quote-doubling replace.  The two single-char
regex replaces are modelled at character-list level, and neutralization is
expressed as a round-trip through `unescContent`, a model of how the store
(MySQL) reads back the characters between the surrounding quotes. -/

/-- The apostrophe character. -/
def quoteChar : Char := Char.ofNat 39

/-- The backslash character. -/
def backslashChar : Char := Char.ofNat 92

/-- A one-character string holding the apostrophe. -/
def quoteStr : String := String.mk [quoteChar]

/-- JS `str.replace(/t/g, r)` for a single-character pattern `t`. -/
def replaceAllC (t : Char) (r : List Char) : List Char → List Char
  | [] => []
  | c :: cs => if c = t then r ++ replaceAllC t r cs else c :: replaceAllC t r cs

/-- The INSERT-path string escaping of `escapeValue`:
`val.replace(/'/g, "''").replace(/\\/g, '\\\\')` (double every quote, then
double every backslash). -/
def escStringChars (s : List Char) : List Char :=
  replaceAllC backslashChar [backslashChar, backslashChar]
    (replaceAllC quoteChar [quoteChar, quoteChar] s)

/-- The DELETE-path id escaping (line 232): `id.replace(/'/g, "''")` only. -/
def escDeleteIdChars (s : List Char) : List Char :=
  replaceAllC quoteChar [quoteChar, quoteChar] s

/-- String-level INSERT-path escaping. -/
def escapeStringSql (s : String) : String :=
  String.mk (escStringChars s.toList)

/-- MySQL's reading of a backslash-escaped character inside a quoted literal
(the escapes relevant to the characters this code can emit; `\x27` and `\x5c`
map to themselves, which the identity branch covers). -/
def mysqlEscChar (c : Char) : Char :=
  if c = 'n' then Char.ofNat 10
  else if c = 't' then Char.ofNat 9
  else if c = 'r' then Char.ofNat 13
  else if c = '0' then Char.ofNat 0
  else c

/-- How MySQL reads the characters standing between the two quotes of a
string literal: `''` is a quote, a backslash escapes the next character, a
lone quote (or a trailing backslash, which would swallow the closing quote)
means the literal does not parse as the intended content — `none`. -/
def unescContent : List Char → Option (List Char)
  | [] => some []
  | c :: rest =>
    if c = backslashChar then
      match rest with
      | [] => none
      | c2 :: r => (unescContent r).map (fun l => mysqlEscChar c2 :: l)
    else if c = quoteChar then
      match rest with
      | [] => none
      | c2 :: r =>
        if c2 = quoteChar then (unescContent r).map (fun l => quoteChar :: l)
        else none
    else (unescContent rest).map (fun l => c :: l)

/-- Local-time calendar fields of a Date, as produced by `getFullYear`,
`getMonth() + 1`, `getDate`, `getHours`, `getMinutes`, `getSeconds`. -/
structure DateParts where
  year : Int
  month : Int
  day : Int
  hour : Int
  minute : Int
  second : Int
deriving DecidableEq, Repr

/-- JS `String(n).padStart(2, '0')` for the calendar fields. -/
def pad2 (n : Int) : String :=
  let s := toString n
  if s.length < 2 then "0" ++ s else s

/-- The `YYYY-MM-DD HH:MM:SS` formatting of `escapeValue`'s Date branch. -/
def fmtDateParts (p : DateParts) : String :=
  toString p.year ++ "-" ++ pad2 p.month ++ "-" ++ pad2 p.day ++ " "
    ++ pad2 p.hour ++ ":" ++ pad2 p.minute ++ ":" ++ pad2 p.second

/-- Embedding of `escapeValue(val, fieldName)` (lines 164-190).  `lp` is the engine's
local-time field breakdown of an epoch-millisecond Date value.  The
`fieldName` parameter is kept for fidelity: the source special-cases
`description` but both null branches produce `NULL`. -/
def escapeValue (lp : Int → DateParts) (v : JsValue) (_fieldName : String) : String :=
  match v with
  | .vNull => "NULL"
  | .vUndefined => "NULL"
  | .vStr s => quoteStr ++ escapeStringSql s ++ quoteStr
  | .vBool b => if b then "1" else "0"
  | .vDate ms => quoteStr ++ fmtDateParts (lp ms) ++ quoteStr
  | .vNum q => jsNumberToString q

/-! ### Concrete instantiations used in closed evaluations -/

/-- Degenerate Date-string parser instantiating the engine parameter in
closed evaluations (no string parses as a date). -/
def dparse0 : String → Option Int := fun _ => none

/-- Degenerate local-calendar `setHours` instantiation for closed
evaluations. -/
def setHMS0 : Int → Int → Int → Int → Int := fun d _ _ _ => d

/-- A well-typed raw product wire record with the given id. -/
def rawProdW (i : String) : RawProduct :=
  { id := .vStr i
    product_code := .vStr "PC"
    product_name := .vStr "N"
    description := .vStr "d"
    price := .vNum 10
    stock_quantity := .vNum 3
    is_active := .vBool true
    updated_at := .vNum 1700000000000 }

/-- The canonical record `sanitizeProductData` produces from `rawProdW i`. -/
def canProdW (i : String) : Product :=
  { id := .vStr i
    product_code := .vStr "PC"
    product_name := .vStr "N"
    description := .vStr "d"
    price := 10
    stock_quantity := 3
    is_active := true
    updated_at := some 1700000000000 }

/-- A raw product whose `description` is a (truthy) number, not a string. -/
def rawProdBadDesc : RawProduct :=
  { rawProdW "p1" with description := .vNum 5 }

/-- A raw product whose `stock_quantity` is the fractional number `-5/2`. -/
def rawProdNegHalfStock : RawProduct :=
  { rawProdW "q1" with stock_quantity := .vNum (mkRat (-5) 2) }

/-- A well-typed raw order wire record. -/
def rawOrderW : RawOrder :=
  { id := .vStr "o1"
    location_id := .vStr "l1"
    customer_id := .vNull
    order_no := .vStr "1001"
    order_type_id := .vStr "t1"
    order_date := .vNum 1700000000000
    order_time := .vStr "09:15:00"
    ip_address := .vStr "1.2.3.4"
    user_agent := .vStr "ua"
    updated_at := .vNum 1700000000000 }

/-- Pull database contents used in closed evaluations. -/
def pullDbW : PullDb :=
  { orders := [{ id := "a", updated_at := 5 }, { id := "b", updated_at := 0 }]
    products := [{ id := "p", updated_at := 1 }] }

/-- An upsert collaborator that fails exactly on the record with id `"b2"`
(persistence-failure injection for the partial-failure scenario). -/
def uOpFailB2 : Product → PStore → Except SyncErr PStore := fun r st =>
  if r.id = .vStr "b2" then .error (.dbError 1) else .ok (upsertStore r st)

/-- Charwise normal form of the INSERT-path escaping (each character maps to
its doubled or unchanged image). -/
def encodeSqlChar (c : Char) : List Char :=
  if c = quoteChar then [quoteChar, quoteChar]
  else if c = backslashChar then [backslashChar, backslashChar]
  else [c]

/-! ### Helper lemmas -/

theorem upsertStore_idem (r : Product) (s : PStore) :
    upsertStore r (upsertStore r s) = upsertStore r s := by
  induction s with
  | nil => simp [upsertStore]
  | cons p ps ih =>
    by_cases h : p.id = r.id
    · simp [upsertStore, h]
    · simp [upsertStore, h, ih]

theorem hasId_upsertStore_self (r : Product) (s : PStore) :
    hasId r.id (upsertStore r s) = true := by
  induction s with
  | nil => simp [hasId, upsertStore]
  | cons p ps ih =>
    by_cases h : p.id = r.id
    · simp [hasId, upsertStore, h]
    · simp [hasId, upsertStore, h] at ih ⊢
      exact ih

theorem removeFirst_not_present (i : JsValue) (s : PStore)
    (h : hasId i s = false) : removeFirst i s = s := by
  induction s with
  | nil => rfl
  | cons p ps ih =>
    simp [hasId] at h
    have h2 : hasId i ps = false := by
      simp [hasId]
      exact h.2
    simp [removeFirst, h.1, ih h2]

theorem rawDeleteById_not_present (i : JsValue) (s : PStore)
    (h : hasId i s = false) : rawDeleteById i s = s := by
  induction s with
  | nil => rfl
  | cons p ps ih =>
    simp [hasId] at h
    have h2 : hasId i ps = false := by
      simp [hasId]
      exact h.2
    simp [rawDeleteById] at ih ⊢
    exact ⟨h.1, ih h2⟩

theorem runFailFast_append (step : α → σ → Except SyncErr σ)
    (l1 l2 : List α) (s : σ) :
    runFailFast step (l1 ++ l2) s =
      match runFailFast step l1 s with
      | (s1, none) => runFailFast step l2 s1
      | (s1, some e) => (s1, some e) := by
  induction l1 generalizing s with
  | nil => simp [runFailFast]
  | cons a as ih =>
    simp only [List.cons_append, runFailFast]
    cases h : step a s with
    | ok s2 => simp [ih]
    | error e => simp

theorem sanitizeProductData_now_irrel (dp : String → Option Int)
    (n1 n2 : Int) (x : RawProduct) (h : jsTruthy x.updated_at = true) :
    sanitizeProductData dp n1 (.obj x) = sanitizeProductData dp n2 (.obj x) := by
  simp [sanitizeProductData, h]

theorem replaceAllC_append (t : Char) (r l1 l2 : List Char) :
    replaceAllC t r (l1 ++ l2) = replaceAllC t r l1 ++ replaceAllC t r l2 := by
  induction l1 with
  | nil => simp [replaceAllC]
  | cons c cs ih =>
    by_cases h : c = t
    · simp [replaceAllC, h, ih]
    · simp [replaceAllC, h, ih]

theorem escStringChars_cons (c : Char) (s : List Char) :
    escStringChars (c :: s) = encodeSqlChar c ++ escStringChars s := by
  have hqb : quoteChar ≠ backslashChar := by decide
  have hbq : backslashChar ≠ quoteChar := by decide
  by_cases hq : c = quoteChar
  · subst hq
    simp [escStringChars, encodeSqlChar, replaceAllC, replaceAllC_append, hqb]
  · by_cases hb : c = backslashChar
    · subst hb
      simp [escStringChars, encodeSqlChar, replaceAllC, replaceAllC_append, hbq]
    · simp [escStringChars, encodeSqlChar, replaceAllC, replaceAllC_append, hq, hb]

theorem unesc_escStringChars (s : List Char) :
    unescContent (escStringChars s) = some s := by
  have hbq : backslashChar ≠ quoteChar := by decide
  have hmb : mysqlEscChar backslashChar = backslashChar := by decide
  induction s with
  | nil => rfl
  | cons c cs ih =>
    rw [escStringChars_cons]
    by_cases hq : c = quoteChar
    · subst hq
      simp [encodeSqlChar, unescContent, Ne.symm hbq, ih]
    · by_cases hb : c = backslashChar
      · subst hb
        simp [encodeSqlChar, unescContent, hbq, hmb, ih]
      · simp only [encodeSqlChar, if_neg hq, if_neg hb, List.singleton_append]
        rw [unescContent.eq_def]
        simp [hq, hb, ih]

/-! ### Claims -/

/-- C1: for every stored record and every since bound that resolves from
`sinceTimestamp`, the created bucket for the record's entity type in the
result of `pull` contains the record if and only if its `updated_at` is
strictly greater than `since`; in particular a record with
`updated_at = since` is excluded. -/
theorem C1_pull_window (db : PullDb) (lpa : Option String) (now since : Int)
    (h : resolveSince lpa = some since) :
    ∃ res, pull db false false lpa now = .ok res ∧
      (∀ r ∈ db.orders, (r ∈ res.changes.mh_off_orders.created ↔ since < r.updated_at)) ∧
      (∀ r ∈ db.products, (r ∈ res.changes.mh_products.created ↔ since < r.updated_at)) ∧
      (∀ r ∈ db.orders, r.updated_at = since → r ∉ res.changes.mh_off_orders.created) ∧
      (∀ r ∈ db.products, r.updated_at = since → r ∉ res.changes.mh_products.created) := by
  refine ⟨{ changes :=
              { mh_off_orders :=
                  { created := findChangedSince since db.orders, updated := [], deleted := [] }
                mh_products :=
                  { created := findChangedSince since db.products, updated := [], deleted := [] } }
            timestamp := now }, by simp [pull, h], ?_, ?_, ?_, ?_⟩
  · intro r hr
    simp [findChangedSince, List.mem_filter, hr]
  · intro r hr
    simp [findChangedSince, List.mem_filter, hr]
  · intro r hr heq
    simp [findChangedSince, List.mem_filter, hr, heq]
  · intro r hr heq
    simp [findChangedSince, List.mem_filter, hr, heq]

/-- C1 witness: concrete database, `sinceTimestamp = "0"`. -/
theorem C1_pull_window_witness :
    ∃ res, pull pullDbW false false (some "0") 99 = .ok res ∧
      (∀ r ∈ pullDbW.orders, (r ∈ res.changes.mh_off_orders.created ↔ 0 < r.updated_at)) ∧
      (∀ r ∈ pullDbW.products, (r ∈ res.changes.mh_products.created ↔ 0 < r.updated_at)) ∧
      (∀ r ∈ pullDbW.orders, r.updated_at = 0 → r ∉ res.changes.mh_off_orders.created) ∧
      (∀ r ∈ pullDbW.products, r.updated_at = 0 → r ∉ res.changes.mh_products.created) :=
  C1_pull_window pullDbW (some "0") 99 0 (by decide)

/-- C2: pushing the same created record twice — in one call or across two
calls at possibly different server times — leaves the store in the same
final state as pushing it once, and each push returns the success
acknowledgment (no duplicate-key error). -/
theorem C2_created_idempotent (dp : String → Option Int) (n1 n2 : Int)
    (c : RawProduct) (r : Product) (s : PStore)
    (hsan : sanitizeProductData dp n1 (.obj c) = .ok r)
    (hupd : jsTruthy c.updated_at = true) :
    pushProducts true upsertOpStd updateOpStd (sanitizeProductData dp n1)
        (some { created := [.obj c, .obj c], updated := [], deleted := [] }) s
      = (upsertStore r s, .ok { success := true }) ∧
    pushProducts true upsertOpStd updateOpStd (sanitizeProductData dp n1)
        (some { created := [.obj c], updated := [], deleted := [] }) s
      = (upsertStore r s, .ok { success := true }) ∧
    pushProducts true upsertOpStd updateOpStd (sanitizeProductData dp n2)
        (some { created := [.obj c], updated := [], deleted := [] }) (upsertStore r s)
      = (upsertStore r s, .ok { success := true }) := by
  have hsan2 : sanitizeProductData dp n2 (.obj c) = .ok r :=
    (sanitizeProductData_now_irrel dp n2 n1 c hupd).trans hsan
  refine ⟨?_, ?_, ?_⟩
  · simp [pushProducts, syncTable, syncTableModelPath, runFailFast, createStep,
      upsertOpStd, Except.bind, hsan, upsertStore_idem]
  · simp [pushProducts, syncTable, syncTableModelPath, runFailFast, createStep,
      upsertOpStd, Except.bind, hsan]
  · simp [pushProducts, syncTable, syncTableModelPath, runFailFast, createStep,
      upsertOpStd, Except.bind, hsan2, upsertStore_idem]

/-- C2 witness: a concrete record pushed twice within a call and across two
calls at different times. -/
theorem C2_created_idempotent_witness :
    pushProducts true upsertOpStd updateOpStd (sanitizeProductData dparse0 0)
        (some { created := [.obj (rawProdW "p1"), .obj (rawProdW "p1")],
                updated := [], deleted := [] }) []
      = (upsertStore (canProdW "p1") [], .ok { success := true }) ∧
    pushProducts true upsertOpStd updateOpStd (sanitizeProductData dparse0 0)
        (some { created := [.obj (rawProdW "p1")], updated := [], deleted := [] }) []
      = (upsertStore (canProdW "p1") [], .ok { success := true }) ∧
    pushProducts true upsertOpStd updateOpStd (sanitizeProductData dparse0 77)
        (some { created := [.obj (rawProdW "p1")], updated := [], deleted := [] })
        (upsertStore (canProdW "p1") [])
      = (upsertStore (canProdW "p1") [], .ok { success := true }) :=
  C2_created_idempotent dparse0 0 77 (rawProdW "p1") (canProdW "p1") []
    (by decide) (by decide)

/-- C3 counterexample: the claim asserts failure isolation for the orders
entity type as well, but the orders query has no catch handler — with the
orders query failing, `pull` as a whole fails instead of returning an empty
orders bucket. -/
theorem C3_counterexample :
    pull pullDbW true false (some "0") 7 = .error .queryFailed := by
  decide

/-- C3 (amended): per-entity failure isolation holds only for the products
entity type — a failing products query degrades to an empty products bucket
and `pull` succeeds — whereas a failing orders query fails the whole pull
call. -/
theorem C3_products_isolation (db : PullDb) (lpa : Option String)
    (now since : Int) (h : resolveSince lpa = some since) :
    pull db false true lpa now =
      .ok { changes :=
              { mh_off_orders :=
                  { created := findChangedSince since db.orders, updated := [], deleted := [] }
                mh_products := { created := [], updated := [], deleted := [] } }
            timestamp := now } ∧
    (∀ pf, pull db true pf lpa now = .error .queryFailed) := by
  constructor
  · simp [pull, h]
  · intro pf
    simp [pull, h]

/-- C3 witness: concrete database with a failing products (resp. orders)
query. -/
theorem C3_products_isolation_witness :
    pull pullDbW false true (some "0") 42 =
      .ok { changes :=
              { mh_off_orders :=
                  { created := findChangedSince 0 pullDbW.orders, updated := [], deleted := [] }
                mh_products := { created := [], updated := [], deleted := [] } }
            timestamp := 42 } ∧
    (∀ pf, pull pullDbW true pf (some "0") 42 = .error .queryFailed) :=
  C3_products_isolation pullDbW (some "0") 42 0 (by decide)

/-- C4: when the item after a successful prefix of the created list fails
persistence, the store keeps exactly the prefix writes (no rollback), the
remaining items (arbitrary `post`) are never attempted, and the error
propagates so the whole push call fails. -/
theorem C4_fail_fast_prefix (uOp : Product → PStore → Except SyncErr PStore)
    (san : ProdIn → Except SyncErr Product) (pre post : List ProdIn)
    (bad : ProdIn) (s s1 : PStore) (e : SyncErr)
    (hpre : runFailFast (createStep uOp san) pre s = (s1, none))
    (hbad : createStep uOp san bad s1 = .error e) :
    pushProducts true uOp updateOpStd san
        (some { created := pre ++ bad :: post, updated := [], deleted := [] }) s
      = (s1, .error e) := by
  have hrun : runFailFast (createStep uOp san) (pre ++ bad :: post) s = (s1, some e) := by
    rw [runFailFast_append, hpre]
    simp [runFailFast, hbad]
  simp [pushProducts, syncTable, syncTableModelPath, hrun]

/-- C4 witness: a three-item created list whose middle item fails
persistence; the first item stays committed, the third is never applied. -/
theorem C4_fail_fast_prefix_witness :
    pushProducts true uOpFailB2 updateOpStd (sanitizeProductData dparse0 0)
        (some { created := [.obj (rawProdW "a1")] ++ .obj (rawProdW "b2") :: [.obj (rawProdW "c3")],
                updated := [], deleted := [] }) []
      = ([canProdW "a1"], .error (.dbError 1)) :=
  C4_fail_fast_prefix uOpFailB2 (sanitizeProductData dparse0 0)
    [.obj (rawProdW "a1")] [.obj (rawProdW "c3")] (.obj (rawProdW "b2"))
    [] [canProdW "a1"] (.dbError 1) (by decide) (by decide)

/-- C5 counterexample: the claim says the sanitizer never throws on
malformed input, but a product whose `description` is a truthy non-string
(here the number 5) makes `sanitizeProductData` throw a TypeError at
`description.trim()`. -/
theorem C5_counterexample :
    sanitizeProductData dparse0 0 (.obj rawProdBadDesc) = .error .typeError := by
  decide

/-- C5 (amended): for non-null object inputs the order sanitizer never
throws, and the product sanitizer never throws provided `description` is a
string or falsy; in every non-throwing case the returned record's id is the
input id unchanged.  A null record, or a truthy non-string product
`description`, raises a TypeError instead. -/
theorem C5_sanitize_total (dp dp2 : String → Option Int)
    (shms : Int → Int → Int → Int → Int) (n1 n2 : Int)
    (p : RawProduct) (o : RawOrder)
    (hdesc : (∃ s, p.description = .vStr s) ∨ jsTruthy p.description = false) :
    (∃ cp, sanitizeProductData dp n1 (.obj p) = .ok cp ∧ cp.id = p.id) ∧
    (∃ co, sanitizeOrderData dp2 shms n2 (.obj o) = .ok co ∧ co.id = o.id) ∧
    sanitizeProductData dp n1 .jsNull = .error .typeError ∧
    sanitizeOrderData dp2 shms n2 .jsNull = .error .typeError := by
  refine ⟨?_, ⟨_, rfl, rfl⟩, rfl, rfl⟩
  rcases hdesc with ⟨str, hstr⟩ | hfalsy
  · simp only [sanitizeProductData, hstr]
    by_cases hj : jsTruthy (JsValue.vStr str) = true
    · rw [if_pos hj]
      exact ⟨_, rfl, rfl⟩
    · rw [if_neg hj]
      exact ⟨_, rfl, rfl⟩
  · have hnt : ¬(jsTruthy p.description = true) := by
      rw [hfalsy]
      exact Bool.false_ne_true
    simp only [sanitizeProductData]
    rw [if_neg hnt]
    exact ⟨_, rfl, rfl⟩

/-- C5 witness: concrete well-typed product and order records. -/
theorem C5_sanitize_total_witness :
    (∃ cp, sanitizeProductData dparse0 0 (.obj (rawProdW "p9")) = .ok cp ∧
      cp.id = (rawProdW "p9").id) ∧
    (∃ co, sanitizeOrderData dparse0 setHMS0 0 (.obj rawOrderW) = .ok co ∧
      co.id = rawOrderW.id) ∧
    sanitizeProductData dparse0 0 .jsNull = .error .typeError ∧
    sanitizeOrderData dparse0 setHMS0 0 .jsNull = .error .typeError :=
  C5_sanitize_total dparse0 dparse0 setHMS0 0 0 (rawProdW "p9") rawOrderW
    (Or.inl ⟨"d", rfl⟩)

/-- C6 counterexample: the id embedded in the fallback DELETE statement is
escaped by quote-doubling only; for the one-character id consisting of a
single backslash the emitted characters are an unneutralized backslash,
which the store's literal reader does not read back as that id (the escape
swallows the closing quote). -/
theorem C6_counterexample :
    unescContent (escDeleteIdChars [backslashChar]) ≠ some [backslashChar] := by
  decide

/-- C6 (amended): in the INSERT path, `escapeValue` neutralizes both quote
characters and backslashes (every escaped string reads back exactly as the
original), booleans map to 1/0, null and undefined map to NULL, and Dates
format as local `YYYY-MM-DD HH:MM:SS`; the DELETE path doubles only quote
characters — a quote round-trips, but a backslash is passed through
unneutralized. -/
theorem C6_escaping (lp : Int → DateParts) (f : String) (b : Bool) (ms : Int) :
    (∀ s : List Char, unescContent (escStringChars s) = some s) ∧
    escapeValue lp (.vBool b) f = (if b then "1" else "0") ∧
    escapeValue lp .vNull f = "NULL" ∧
    escapeValue lp .vUndefined f = "NULL" ∧
    escapeValue lp (.vDate ms) f = quoteStr ++ fmtDateParts (lp ms) ++ quoteStr ∧
    unescContent (escDeleteIdChars [quoteChar]) = some [quoteChar] ∧
    escDeleteIdChars [backslashChar] = [backslashChar] := by
  exact ⟨unesc_escStringChars, rfl, rfl, rfl, rfl, by decide, by decide⟩

/-- C7 counterexample: the claim says an unparseable `sinceTimestamp` yields
the epoch origin, but a truthy non-numeric string yields an Invalid Date
bound (`Number` returns NaN), not the epoch origin. -/
theorem C7_counterexample : resolveSince (some "abc") ≠ some 0 := by
  decide

/-- C7 (amended): the since bound is the epoch origin when `sinceTimestamp`
is absent or empty; a non-empty value is coerced with `Number` and truncated
to epoch milliseconds when parseable, while an unparseable non-empty value
produces an Invalid Date bound (no epoch value at all). -/
theorem C7_since_resolution (s : String) :
    resolveSince none = some 0 ∧
    resolveSince (some "") = some 0 ∧
    (s ≠ "" → resolveSince (some s) = (jsNumberOfString s).map ratTruncZ) ∧
    resolveSince (some "abc") = none := by
  refine ⟨rfl, by decide, ?_, by decide⟩
  intro h
  simp [resolveSince, h]

/-- C7 witness: a concrete parseable timestamp string. -/
theorem C7_since_resolution_witness :
    resolveSince (some "1700000000000")
      = (jsNumberOfString "1700000000000").map ratTruncZ :=
  (C7_since_resolution "1700000000000").2.2.1 (by decide)

/-- C8 counterexample: the claim says a fractional numeric `stock_quantity`
is truncated toward zero, but the code applies `Math.floor`: for the input
`-5/2` the sanitized value is `-3`, while truncation toward zero gives
`-2`. -/
theorem C8_counterexample :
    (sanitizeProductData dparse0 0 (.obj rawProdNegHalfStock)).map
        (fun p => p.stock_quantity) = .ok (-3) ∧
    ratTruncZ (mkRat (-5) 2) = -2 ∧ ((-3 : Int) ≠ -2) := by
  refine ⟨by decide, by decide, by decide⟩

/-- C8 (amended): integer numeric `stock_quantity` passes through; a
fractional numeric input is floored (toward negative infinity, which
coincides with truncation toward zero only for non-negative inputs); a
string input is parsed base-10, defaulting to 0 on parse failure. -/
theorem C8_stock_amended :
    (∀ n : Int, sanitizeStockQuantity (.vNum (n : Rat)) = n) ∧
    (∀ q : Rat, sanitizeStockQuantity (.vNum q) = jsMathFloor q) ∧
    (∀ q : Rat, 0 ≤ q → sanitizeStockQuantity (.vNum q) = ratTruncZ q) ∧
    (∀ s : String, sanitizeStockQuantity (.vStr s) = (jsParseInt s).getD 0) := by
  refine ⟨?_, fun q => rfl, ?_, fun s => rfl⟩
  · intro n
    simp [sanitizeStockQuantity, jsMathFloor]
  · intro q hq
    have hn : 0 ≤ q.num := Rat.num_nonneg.mpr hq
    have hd : (0 : Int) ≤ (q.den : Int) := Int.ofNat_nonneg q.den
    simp only [sanitizeStockQuantity, jsMathFloor, ratTruncZ]
    rw [Int.fdiv_eq_ediv _ hd, Int.tdiv_eq_ediv hn hd]

/-- C8 witness: a concrete non-negative fractional stock quantity where
floor and truncation agree. -/
theorem C8_stock_amended_witness :
    sanitizeStockQuantity (.vNum (mkRat 5 2)) = ratTruncZ (mkRat 5 2) :=
  C8_stock_amended.2.2.1 (mkRat 5 2) (by decide)

/-- C9: deleting an id that is absent from the store is swallowed (the store
is unchanged) and `push` still returns the success acknowledgment, on both
the Prisma-model path and the raw-SQL fallback path. -/
theorem C9_delete_absent (dp : String → Option Int) (now : Int)
    (i : JsValue) (s : PStore) (habs : hasId i s = false) :
    pushProducts true upsertOpStd updateOpStd (sanitizeProductData dp now)
        (some { created := [], updated := [], deleted := [i] }) s
      = (s, .ok { success := true }) ∧
    pushProducts false upsertOpStd updateOpStd (sanitizeProductData dp now)
        (some { created := [], updated := [], deleted := [i] }) s
      = (s, .ok { success := true }) := by
  constructor
  · simp [pushProducts, syncTable, syncTableModelPath, runFailFast,
      removeFirst_not_present i s habs]
  · simp [pushProducts, syncTable, syncTableRawSQL, runFailFast,
      rawDeleteById_not_present i s habs]

/-- C9 witness: deleting a ghost id from a one-row store. -/
theorem C9_delete_absent_witness :
    pushProducts true upsertOpStd updateOpStd (sanitizeProductData dparse0 0)
        (some { created := [], updated := [], deleted := [.vStr "ghost"] })
        [canProdW "a1"]
      = ([canProdW "a1"], .ok { success := true }) ∧
    pushProducts false upsertOpStd updateOpStd (sanitizeProductData dparse0 0)
        (some { created := [], updated := [], deleted := [.vStr "ghost"] })
        [canProdW "a1"]
      = ([canProdW "a1"], .ok { success := true }) :=
  C9_delete_absent dparse0 0 (.vStr "ghost") [canProdW "a1"] (by decide)

/-- C10: in the raw-SQL fallback, updated items run through the same
INSERT-or-update statement as created items, so updating a non-existent id
inserts the row and succeeds; on the model path, update-by-id of an absent
id surfaces the persistence layer's not-found error. -/
theorem C10_raw_update_inserts (dp : String → Option Int) (now : Int)
    (item : RawProduct) (r : Product) (s : PStore)
    (hsan : sanitizeProductData dp now (.obj item) = .ok r)
    (habs : hasId r.id s = false) :
    syncTable false upsertOpStd updateOpStd (sanitizeProductData dp now)
        { created := [], updated := [.obj item], deleted := [] } s
      = (upsertStore r s, none) ∧
    hasId r.id (upsertStore r s) = true ∧
    syncTable true upsertOpStd updateOpStd (sanitizeProductData dp now)
        { created := [], updated := [.obj item], deleted := [] } s
      = (s, some .notFound) := by
  refine ⟨?_, hasId_upsertStore_self r s, ?_⟩
  · simp [syncTable, syncTableRawSQL, runFailFast, createStep, upsertOpStd,
      Except.bind, hsan]
  · simp [syncTable, syncTableModelPath, runFailFast, createStep, updateOpStd,
      Except.bind, hsan, habs]

/-- C10 witness: updating an id absent from an empty store. -/
theorem C10_raw_update_inserts_witness :
    syncTable false upsertOpStd updateOpStd (sanitizeProductData dparse0 0)
        { created := [], updated := [.obj (rawProdW "u1")], deleted := [] } []
      = (upsertStore (canProdW "u1") [], none) ∧
    hasId (canProdW "u1").id (upsertStore (canProdW "u1") []) = true ∧
    syncTable true upsertOpStd updateOpStd (sanitizeProductData dparse0 0)
        { created := [], updated := [.obj (rawProdW "u1")], deleted := [] } []
      = ([], some .notFound) :=
  C10_raw_update_inserts dparse0 0 (rawProdW "u1") (canProdW "u1") []
    (by decide) (by decide)

end SyncSvc
